import Mathlib

/-!
Verification of the voice transport core in `src-tauri/src/audio/network.rs`
(repository Delta-Zero-Games/llas).

The Rust code is shallowly embedded: `u32` values are natural numbers with
wrapping arithmetic written as `% 4294967296` where the source can overflow
in release mode, `Instant`s and `Duration`s are natural numbers of
nanoseconds, `VecDeque` is a `List` (push_back appends, pop_front drops the
head), `HashMap<SocketAddr, _>` is an association list keyed by a natural
number standing for the socket address, and `f32` quantities are exact
rationals.
-/

/-- Modulus of Rust `u32` arithmetic. -/
def U32LIM : Nat := 4294967296

/-- Big-endian bytes of a `u16` value (`WriteBytesExt::write_u16::<BigEndian>`). -/
def be16 (n : Nat) : List Nat := [n / 256 % 256, n % 256]

/-- Big-endian bytes of a `u32` value (`u32::to_be_bytes`). -/
def be32 (n : Nat) : List Nat :=
  [n / 16777216 % 256, n / 65536 % 256, n / 256 % 256, n % 256]

/-- Big-endian bytes of a `u64` value (`BytesMut::put_u64`). -/
def be64 (n : Nat) : List Nat :=
  [n / 72057594037927936 % 256, n / 281474976710656 % 256,
   n / 1099511627776 % 256, n / 4294967296 % 256,
   n / 16777216 % 256, n / 65536 % 256, n / 256 % 256, n % 256]

/-- The `u32::from_be_bytes` read of the first four bytes of a datagram
(`network.rs` lines 385-387); the catch-all is unreachable because the code
checks `size < 4` first. -/
def be32At (l : List Nat) : Nat :=
  match l with
  | b0 :: b1 :: b2 :: b3 :: _ => ((b0 * 256 + b1) * 256 + b2) * 256 + b3
  | _ => 0

/-! ## Quality Monitor (`network.rs` lines 41-141) -/

/-- `ConnectionQuality` (`network.rs` lines 32-39). -/
inductive ConnectionQuality
  | Excellent
  | Good
  | Fair
  | Poor
  | Critical
  deriving DecidableEq

/-- `NetworkStats` (`network.rs` lines 24-30): durations in nanoseconds,
packet loss as an exact rational. -/
structure NetworkStats where
  latency : Nat
  packet_loss : ℚ
  jitter : Nat
  connection_quality : ConnectionQuality
  deriving DecidableEq

/-- `QualityMonitor` state (`network.rs` lines 41-49). -/
structure QualityMonitor where
  last_sequence : Nat
  packets_received : Nat
  packets_lost : Nat
  last_packet_time : Nat
  latency_samples : List Nat
  jitter_samples : List Nat
  deriving DecidableEq

/-- `QualityMonitor::new` (`network.rs` lines 52-61); `Instant::now()` is the
explicit `now` argument. -/
def QualityMonitor.new (now : Nat) : QualityMonitor :=
  { last_sequence := 0
    packets_received := 0
    packets_lost := 0
    last_packet_time := now
    latency_samples := []
    jitter_samples := [] }

/-- `QualityMonitor::update` (`network.rs` lines 63-89).  The source computes
`sequence - self.last_sequence` on `u32`, which wraps in release builds; the
embedding uses the wrapping value `(sequence + U32LIM - last) % U32LIM`. -/
def QualityMonitor.update (m : QualityMonitor) (sequence received_time : Nat) :
    QualityMonitor :=
  let lost :=
    if m.last_sequence ≠ 0 then
      let expected := (sequence + U32LIM - m.last_sequence) % U32LIM
      if expected > 1 then (m.packets_lost + (expected - 1)) % U32LIM
      else m.packets_lost
    else m.packets_lost
  let latency := received_time - m.last_packet_time
  let ls1 := m.latency_samples ++ [latency]
  let ls := if ls1.length > 100 then ls1.tail else ls1
  let js :=
    match ls.get? (ls.length - 2) with
    | some last_latency =>
      let j := if latency > last_latency then latency - last_latency
               else last_latency - latency
      let js1 := m.jitter_samples ++ [j]
      if js1.length > 100 then js1.tail else js1
    | none => m.jitter_samples
  { last_sequence := sequence
    packets_received := (m.packets_received + 1) % U32LIM
    packets_lost := lost
    last_packet_time := received_time
    latency_samples := ls
    jitter_samples := js }

/-- `QualityMonitor::calculate_average_latency` (`network.rs` lines 116-123). -/
def QualityMonitor.calculate_average_latency (m : QualityMonitor) : Nat :=
  if m.latency_samples = [] then 0
  else m.latency_samples.sum / m.latency_samples.length

/-- `QualityMonitor::calculate_packet_loss` (`network.rs` lines 125-131);
the `f32` division is modelled as exact rational division. -/
def QualityMonitor.calculate_packet_loss (m : QualityMonitor) : ℚ :=
  if m.packets_received = 0 then 0
  else (m.packets_lost : ℚ) / ((m.packets_received : ℚ) + (m.packets_lost : ℚ))

/-- `QualityMonitor::calculate_average_jitter` (`network.rs` lines 133-140). -/
def QualityMonitor.calculate_average_jitter (m : QualityMonitor) : Nat :=
  if m.jitter_samples = [] then 0
  else m.jitter_samples.sum / m.jitter_samples.length

/-- `QualityMonitor::get_stats` (`network.rs` lines 91-114).  `as_millis()`
is nanoseconds divided by 1000000; the `f32` thresholds `0.01` … `0.10`
are the exact rationals they denote in the source text. -/
def QualityMonitor.get_stats (m : QualityMonitor) : NetworkStats :=
  let avg_latency := m.calculate_average_latency
  let packet_loss := m.calculate_packet_loss
  let avg_jitter := m.calculate_average_jitter
  let quality :=
    if avg_latency / 1000000 < 50 ∧ packet_loss < 1/100 then
      ConnectionQuality.Excellent
    else if avg_latency / 1000000 < 100 ∧ packet_loss < 2/100 then
      ConnectionQuality.Good
    else if avg_latency / 1000000 < 150 ∧ packet_loss < 5/100 then
      ConnectionQuality.Fair
    else if avg_latency / 1000000 < 200 ∧ packet_loss < 10/100 then
      ConnectionQuality.Poor
    else
      ConnectionQuality.Critical
  { latency := avg_latency
    packet_loss := packet_loss
    jitter := avg_jitter
    connection_quality := quality }

/-- The quality table of spec section 4.3, written from the spec's words:
the bucket is the first matching row of `(latency, loss)` thresholds. -/
def specQualityTable (latency_ms : Nat) (loss : ℚ) : ConnectionQuality :=
  if latency_ms < 50 ∧ loss < 1/100 then ConnectionQuality.Excellent
  else if latency_ms < 100 ∧ loss < 2/100 then ConnectionQuality.Good
  else if latency_ms < 150 ∧ loss < 5/100 then ConnectionQuality.Fair
  else if latency_ms < 200 ∧ loss < 10/100 then ConnectionQuality.Poor
  else ConnectionQuality.Critical

/-! ## Claims C5, C6, C10 -/

/-- C5 (counterexample): the claim says a reordered arrival with
`sequence < last_sequence` leaves `packets_lost` unchanged.  In the code the
`u32` subtraction `sequence - last_sequence` wraps (release mode), so after
receiving sequence 5 first, a reordered arrival of sequence 3 adds
`2^32 - 3` to `packets_lost` instead of leaving it unchanged. -/
theorem qm_update_reorder_counterexample :
    (QualityMonitor.update (QualityMonitor.update (QualityMonitor.new 0) 5 0) 3 0).packets_lost
      = 4294967293 ∧
    (QualityMonitor.update (QualityMonitor.new 0) 5 0).packets_lost = 0 := by
  constructor <;> rfl

/-- C5 (amended): full characterisation of the `packets_lost` change of
`QualityMonitor::update`.  When `last_sequence = 0` or
`sequence = last_sequence` the counter is unchanged; when
`sequence > last_sequence ≠ 0` it grows by `sequence - last_sequence - 1`
(mod 2^32); when `sequence < last_sequence ≠ 0` the wrapping subtraction
makes it grow by `2^32 - (last_sequence - sequence) - 1` (mod 2^32). -/
theorem qm_update_loss_characterization (m : QualityMonitor) (s t : Nat)
    (hs : s < U32LIM) (hl : m.last_sequence < U32LIM) (hp : m.packets_lost < U32LIM) :
    ((m.last_sequence = 0 ∨ s = m.last_sequence) →
       (QualityMonitor.update m s t).packets_lost = m.packets_lost) ∧
    (m.last_sequence ≠ 0 → m.last_sequence < s →
       (QualityMonitor.update m s t).packets_lost
         = (m.packets_lost + (s - m.last_sequence - 1)) % U32LIM) ∧
    (m.last_sequence ≠ 0 → s < m.last_sequence →
       (QualityMonitor.update m s t).packets_lost
         = (m.packets_lost + (U32LIM - (m.last_sequence - s) - 1)) % U32LIM) := by
  simp only [QualityMonitor.update, U32LIM] at *
  refine ⟨?_, ?_, ?_⟩
  · rintro (h | h) <;> simp only [h] <;> split_ifs <;> omega
  · intro h0 hlt
    split_ifs <;> omega
  · intro h0 hlt
    split_ifs <;> omega

/-- C5 (witness): instantiation of the characterisation at the fresh
monitor, whose `last_sequence` is zero. -/
theorem qm_update_loss_characterization_witness :
    (QualityMonitor.update (QualityMonitor.new 0) 5 0).packets_lost
      = (QualityMonitor.new 0).packets_lost :=
  (qm_update_loss_characterization (QualityMonitor.new 0) 5 0
    (by decide) (by decide) (by decide)).1 (Or.inl rfl)

/-- C10: whenever `last_sequence = 0` — as in the initial state and after
any arrival carrying sequence number 0 — `update` leaves `packets_lost`
unchanged for every sequence value, so gaps after a sequence-0 packet are
never counted as loss. -/
theorem qm_zero_last_sequence_no_loss :
    (∀ now, (QualityMonitor.new now).last_sequence = 0) ∧
    (∀ (m : QualityMonitor) (t : Nat),
       (QualityMonitor.update m 0 t).last_sequence = 0) ∧
    (∀ (m : QualityMonitor) (s t : Nat), m.last_sequence = 0 →
       (QualityMonitor.update m s t).packets_lost = m.packets_lost) := by
  refine ⟨fun _ => rfl, fun _ _ => rfl, fun m s t h => ?_⟩
  simp [QualityMonitor.update, h]

/-- C10 (witness): the third conjunct applied to the monitor obtained after
an arrival with sequence 0, a state with `last_sequence = 0`. -/
theorem qm_zero_last_sequence_no_loss_witness :
    (QualityMonitor.update (QualityMonitor.update (QualityMonitor.new 0) 0 3) 9 4).packets_lost
      = (QualityMonitor.update (QualityMonitor.new 0) 0 3).packets_lost :=
  qm_zero_last_sequence_no_loss.2.2 _ 9 4 (by rfl)

/-- C6: the quality bucket returned by `get_stats` is exactly the spec
table applied to the mean latency in milliseconds and the loss fraction:
a pure function of that pair, with the boundary rows matching. -/
theorem stats_bucket_matches_spec_table (m : QualityMonitor) :
    (QualityMonitor.get_stats m).connection_quality
      = specQualityTable (m.calculate_average_latency / 1000000)
          m.calculate_packet_loss := by
  rfl

/-! ## Jitter Buffer (`network.rs` lines 143-190) -/

/-- `JitterBuffer` state (`network.rs` lines 143-150). -/
structure JitterBuffer where
  buffer : List (Nat × List Nat)
  min_delay : Nat
  max_delay : Nat
  current_delay : Nat
  last_sequence : Nat
  deriving DecidableEq

/-- `JitterBuffer::new` (`network.rs` lines 153-161). -/
def JitterBuffer.new (min_delay max_delay : Nat) : JitterBuffer :=
  { buffer := []
    min_delay := min_delay
    max_delay := max_delay
    current_delay := min_delay
    last_sequence := 0 }

/-- The insertion of `JitterBuffer::add_packet` (`network.rs` lines 164-167):
the packet goes at the first position whose sequence is greater than the
incoming one, or at the end. -/
def insertBySeq (l : List (Nat × List Nat)) (sequence : Nat) (data : List Nat) :
    List (Nat × List Nat) :=
  match l with
  | [] => [(sequence, data)]
  | (q, x) :: rest =>
    if q > sequence then (sequence, data) :: (q, x) :: rest
    else (q, x) :: insertBySeq rest sequence data

/-- `JitterBuffer::adapt_delay` (`network.rs` lines 180-189).  Both
`self.current_delay + jitter` and `self.current_delay - 1` are `u32`
operations that wrap in release builds, hence the `% U32LIM`. -/
def JitterBuffer.adapt_delay (jb : JitterBuffer) (sequence : Nat) : JitterBuffer :=
  if sequence > jb.last_sequence then
    let jitter := sequence - jb.last_sequence - 1
    if jitter > 0 then
      { jb with current_delay := min ((jb.current_delay + jitter) % U32LIM) jb.max_delay }
    else
      { jb with current_delay := max ((jb.current_delay + U32LIM - 1) % U32LIM) jb.min_delay }
  else jb

/-- `JitterBuffer::add_packet` (`network.rs` lines 163-169). -/
def JitterBuffer.add_packet (jb : JitterBuffer) (sequence : Nat) (data : List Nat) :
    JitterBuffer :=
  JitterBuffer.adapt_delay { jb with buffer := insertBySeq jb.buffer sequence data } sequence

/-- `JitterBuffer::get_next_packet` (`network.rs` lines 171-178), returning
the released payload (if any) together with the successor state.  The length
comparison is the source's `self.buffer.len() as u32 * 10 < self.current_delay`
with wrapping `u32` arithmetic. -/
def JitterBuffer.get_next_packet (jb : JitterBuffer) : Option (List Nat) × JitterBuffer :=
  if jb.buffer.length % U32LIM * 10 % U32LIM < jb.current_delay then (none, jb)
  else
    match jb.buffer with
    | [] => (none, jb)
    | (seq, data) :: rest =>
      (some data, { jb with buffer := rest, last_sequence := seq })

/-- The delay invariant of spec section 3: `min_delay ≤ current_delay ≤ max_delay`. -/
def JBDelayInv (jb : JitterBuffer) : Prop :=
  jb.min_delay ≤ jb.current_delay ∧ jb.current_delay ≤ jb.max_delay

/-- C7 (counterexample): the claim quantifies over every `min_delay ≤ max_delay`,
but with `min_delay = 0` the in-order decrement `current_delay - 1` wraps to
`2^32 - 1`, breaking `current_delay ≤ max_delay`: `new(0, 5)` satisfies the
invariant, yet after `add_packet(1, [])` the delay is `2^32 - 1 > 5`. -/
theorem jb_delay_invariant_counterexample :
    (0 : Nat) ≤ 5 ∧ JBDelayInv (JitterBuffer.new 0 5) ∧
    (JitterBuffer.add_packet (JitterBuffer.new 0 5) 1 []).current_delay = 4294967295 ∧
    ¬ JBDelayInv (JitterBuffer.add_packet (JitterBuffer.new 0 5) 1 []) := by
  refine ⟨by decide, ⟨by decide, by decide⟩, by rfl, fun h => absurd h.2 (by decide)⟩

/-- C7 (amended): with `1 ≤ min_delay ≤ max_delay` the invariant
`min_delay ≤ current_delay ≤ max_delay` holds after `new`, is preserved by
`get_next_packet`, and is preserved by `add_packet` (hence `adapt_delay`)
whenever the `u32` sum `current_delay + (sequence - last_sequence - 1)`
does not overflow. -/
theorem jb_delay_invariant_preserved :
    (∀ mn mx, mn ≤ mx → JBDelayInv (JitterBuffer.new mn mx)) ∧
    (∀ jb, JBDelayInv jb → JBDelayInv (JitterBuffer.get_next_packet jb).2) ∧
    (∀ jb sequence data, JBDelayInv jb → 1 ≤ jb.min_delay →
       jb.current_delay + (sequence - jb.last_sequence - 1) < U32LIM →
       JBDelayInv (JitterBuffer.add_packet jb sequence data)) := by
  refine ⟨?_, ?_, ?_⟩
  · intro mn mx h
    exact ⟨le_refl _, h⟩
  · intro jb h
    unfold JitterBuffer.get_next_packet
    split
    · exact h
    · match hb : jb.buffer with
      | [] => exact h
      | (seq, data) :: rest => exact h
  · intro jb sequence data hinv hmin hnof
    obtain ⟨h1, h2⟩ := hinv
    unfold JitterBuffer.add_packet JitterBuffer.adapt_delay
    simp only [U32LIM] at *
    split_ifs with hgt hj
    · constructor
      · simp only [JBDelayInv]
        omega
      · simp only [JBDelayInv]
        omega
    · constructor
      · simp only [JBDelayInv]
        omega
      · simp only [JBDelayInv]
        omega
    · exact ⟨h1, h2⟩

/-- C7 (witness): the preservation clauses applied to the default
`new(20, 50)` buffer and an in-order first packet. -/
theorem jb_delay_invariant_preserved_witness :
    JBDelayInv (JitterBuffer.add_packet (JitterBuffer.new 20 50) 1 []) :=
  jb_delay_invariant_preserved.2.2 (JitterBuffer.new 20 50) 1 []
    ⟨by decide, by decide⟩ (by decide) (by decide)

/-! ## Association lists standing for `HashMap<SocketAddr, _>` -/

/-- Lookup in an association list (`HashMap::get` / `get_mut`). -/
def lookupA {α : Type} (l : List (Nat × α)) (k : Nat) : Option α :=
  match l with
  | [] => none
  | (k', v) :: rest => if k' = k then some v else lookupA rest k

/-- Insertion overwriting an existing binding (`HashMap::insert`). -/
def insertA {α : Type} (l : List (Nat × α)) (k : Nat) (v : α) : List (Nat × α) :=
  match l with
  | [] => [(k, v)]
  | (k', v') :: rest => if k' = k then (k, v) :: rest else (k', v') :: insertA rest k v

/-- Deletion of a binding (`HashMap::remove`). -/
def eraseA {α : Type} (l : List (Nat × α)) (k : Nat) : List (Nat × α) :=
  match l with
  | [] => []
  | (k', v') :: rest => if k' = k then rest else (k', v') :: eraseA rest k

/-! ## Send paths and receive framing (`network.rs` lines 309-327, 342-361, 378-403) -/

/-- The datagram built by `AudioNetwork::send_audio` (`network.rs` lines
309-313): a 4-byte big-endian sequence (from the wrapping atomic counter)
followed by the frame bytes — no timestamp field. -/
def sendAudioPacket (sequence : Nat) (data : List Nat) : List Nat :=
  be32 (sequence % U32LIM) ++ data

/-- The datagram built by the `start_streaming` task (`network.rs` lines
348-354): `put_u32(0)` — the sequence is hard-coded to zero — then the
64-bit wall-clock millisecond timestamp, then the frame bytes. -/
def streamingPacket (timestamp_ms : Nat) (data : List Nat) : List Nat :=
  be32 0 ++ be64 (timestamp_ms % 18446744073709551616) ++ data

/-- The header parse of the receive loop (`network.rs` lines 380-402):
datagrams shorter than 4 bytes are dropped; otherwise the first four bytes
are the big-endian sequence and everything after offset 4 is the payload. -/
def parseIncoming (data : List Nat) : Option (Nat × List Nat) :=
  if data.length < 4 then none
  else some (be32At data, data.drop 4)

/-! ## Receive pipeline state step (`network.rs` lines 363-410) -/

/-- Observable state of the receive task: the per-peer maps it was given and
the messages published so far on the stats and decoded-frame broadcasts. -/
structure RecvState where
  jitter_buffers : List (Nat × JitterBuffer)
  quality_monitors : List (Nat × QualityMonitor)
  stats_out : List (Nat × NetworkStats)
  audio_out : List (List Nat × Nat)
  deriving DecidableEq

/-- One iteration of the receive loop of `AudioNetwork::handle_incoming`
(`network.rs` lines 377-404) on a datagram `data` from address `addr` at
time `now`: datagrams of fewer than 4 bytes are skipped; otherwise the
sequence is read from the first four bytes, the peer's quality monitor (if
registered) is updated and its stats broadcast, and the bytes after offset 4
are broadcast on the decoded-frame channel.  The cloned jitter-buffer map
(`jb_clone`, line 372) is never touched by the source, so `jitter_buffers`
is left unchanged. -/
def handleDatagram (st : RecvState) (addr : Nat) (data : List Nat) (now : Nat) :
    RecvState :=
  if data.length < 4 then st
  else
    let sequence := be32At data
    let st1 :=
      match lookupA st.quality_monitors addr with
      | some monitor =>
        let monitor' := QualityMonitor.update monitor sequence now
        let stats := QualityMonitor.get_stats monitor'
        { st with
            quality_monitors := insertA st.quality_monitors addr monitor'
            stats_out := st.stats_out ++ [(addr, stats)] }
      | none => st
    { st1 with audio_out := st1.audio_out ++ [(data.drop 4, addr)] }

/-! ## Peer registry (`network.rs` lines 192-202, 329-340) -/

/-- The registry slice of `AudioNetwork`: the peer list and the two per-peer
maps (`network.rs` lines 195, 199-200). -/
structure AudioNetworkSt where
  peers : List Nat
  jitter_buffers : List (Nat × JitterBuffer)
  quality_monitors : List (Nat × QualityMonitor)
  deriving DecidableEq

/-- Registry state created by `AudioNetwork::new` (`network.rs` lines 219-229). -/
def AudioNetworkSt.empty : AudioNetworkSt :=
  { peers := [], jitter_buffers := [], quality_monitors := [] }

/-- `AudioNetwork::add_peer` (`network.rs` lines 329-335); `now` stands for
the `Instant::now()` inside `QualityMonitor::new`. -/
def AudioNetworkSt.add_peer (st : AudioNetworkSt) (addr now : Nat) : AudioNetworkSt :=
  if addr ∈ st.peers then st
  else
    { peers := st.peers ++ [addr]
      jitter_buffers := insertA st.jitter_buffers addr (JitterBuffer.new 20 50)
      quality_monitors := insertA st.quality_monitors addr (QualityMonitor.new now) }

/-- `AudioNetwork::remove_peer` (`network.rs` lines 337-340): the peer list
and the jitter-buffer map are cleaned, but the source never removes the
entry from `quality_monitors`. -/
def AudioNetworkSt.remove_peer (st : AudioNetworkSt) (addr : Nat) : AudioNetworkSt :=
  { st with
      peers := st.peers.filter (fun x => x ≠ addr)
      jitter_buffers := eraseA st.jitter_buffers addr }

/-! ## Claims C1, C2, C4, C8 -/

/-- Receive-task state with one registered peer at address 0, as produced by
`add_peer`: fresh default jitter buffer and fresh quality monitor, nothing
broadcast yet. -/
def recvStatePeer0 : RecvState :=
  { jitter_buffers := [(0, JitterBuffer.new 20 50)]
    quality_monitors := [(0, QualityMonitor.new 0)]
    stats_out := []
    audio_out := [] }

/-- C1: a legal-size datagram (12-byte header plus payload byte `0xAB`,
sequence 1, timestamp 7) from the registered peer is published on the
decoded-frame broadcast directly — carrying the timestamp bytes — while the
peer's jitter buffer map is left completely untouched: `handle_incoming`
never calls `add_packet` or `get_next_packet`. -/
theorem recv_bypasses_jitter_buffer :
    (handleDatagram recvStatePeer0 0 ([0, 0, 0, 1] ++ [0, 0, 0, 0, 0, 0, 0, 7] ++ [171]) 0).audio_out
      = [([0, 0, 0, 0, 0, 0, 0, 7, 171], 0)] ∧
    (handleDatagram recvStatePeer0 0 ([0, 0, 0, 1] ++ [0, 0, 0, 0, 0, 0, 0, 7] ++ [171]) 0).jitter_buffers
      = recvStatePeer0.jitter_buffers := by
  constructor <;> rfl

/-- C2: the wire formats of the two send paths against the receive parser.
The streaming task emits the 12-byte header but hard-codes sequence 0, and
the parser returns its 8 timestamp bytes as part of the payload instead of
recovering the timestamp; the `send_audio` path, which does stamp a real
sequence, emits only a 4-byte header with no timestamp at all.  In no case
does parsing recover `(sequence, timestamp)` with the opaque payload. -/
theorem wire_format_mismatch :
    parseIncoming (streamingPacket 7 [171]) = some (0, [0, 0, 0, 0, 0, 0, 0, 7, 171]) ∧
    sendAudioPacket 5 [171] = [0, 0, 0, 5, 171] ∧
    (streamingPacket 7 [171]).length = 13 ∧
    (sendAudioPacket 5 [171]).length = 5 := by
  refine ⟨rfl, rfl, rfl, rfl⟩

/-- C4 (counterexample): an 11-byte datagram from the registered peer is
*not* dropped: its last 7 bytes are published on the decoded-frame
broadcast and the peer's quality monitor records a received packet — the
code's threshold is 4 bytes, not 12. -/
theorem recv_11_byte_datagram_processed :
    (handleDatagram recvStatePeer0 0 [0, 0, 0, 1, 9, 9, 9, 9, 9, 9, 9] 0).audio_out
      = [([9, 9, 9, 9, 9, 9, 9], 0)] ∧
    (lookupA (handleDatagram recvStatePeer0 0 [0, 0, 0, 1, 9, 9, 9, 9, 9, 9, 9] 0).quality_monitors 0).map
        (fun m => m.packets_received) = some 1 := by
  constructor <;> rfl

/-- C4 (amended): every datagram shorter than 4 bytes is dropped silently
with no state change at all. -/
theorem recv_below_4_no_state_change (st : RecvState) (addr : Nat)
    (data : List Nat) (now : Nat) (h : data.length < 4) :
    handleDatagram st addr data now = st := by
  simp [handleDatagram, h]

/-- C4 (witness): a 3-byte datagram leaves the registered-peer state
unchanged. -/
theorem recv_below_4_no_state_change_witness :
    handleDatagram recvStatePeer0 0 [1, 2, 3] 5 = recvStatePeer0 :=
  recv_below_4_no_state_change recvStatePeer0 0 [1, 2, 3] 5 (by decide)

/-- C8: after `add_peer(7)` then `remove_peer(7)` the peer list and the
jitter-buffer map no longer mention address 7, but the quality monitor for
address 7 is still present: `remove_peer` never touches `quality_monitors`. -/
theorem remove_peer_keeps_monitor :
    ((AudioNetworkSt.empty.add_peer 7 0).remove_peer 7).peers = [] ∧
    lookupA ((AudioNetworkSt.empty.add_peer 7 0).remove_peer 7).jitter_buffers 7 = none ∧
    lookupA ((AudioNetworkSt.empty.add_peer 7 0).remove_peer 7).quality_monitors 7
      = some (QualityMonitor.new 0) := by
  refine ⟨rfl, rfl, rfl⟩

/-! ## TURN allocation request (`network.rs` lines 244-287, 440-462) -/

/-- `pad_to_multiple_of_4` (`network.rs` lines 440-444): append zero bytes
until the length is a multiple of 4. -/
def pad_to_multiple_of_4 (data : List Nat) : List Nat :=
  data ++ List.replicate ((4 - data.length % 4) % 4) 0

/-- `hmac_key` (`network.rs` lines 446-454): the raw concatenation
`username ":" realm ":" credential` (58 is the ASCII colon). -/
def hmac_key (username credential realm : List Nat) : List Nat :=
  username ++ [58] ++ realm ++ [58] ++ credential

/-- The request prefix of `setup_turn_connection` up to and including the
USERNAME attribute (`network.rs` lines 245-272): STUN header with message
type 0x0003, a zero message-length placeholder, the magic cookie and the
transaction id, then the REQUESTED-TRANSPORT, REALM and USERNAME attributes,
each padded to a 4-byte boundary. -/
def allocRequestPrefix (realm username txid : List Nat) : List Nat :=
  let afterTransport :=
    be16 3 ++ be16 0 ++ be32 556745794 ++ txid
      ++ be16 25 ++ be16 4 ++ [17, 0, 0, 0]
  let afterRealm :=
    pad_to_multiple_of_4 (afterTransport ++ be16 20 ++ be16 (realm.length % 65536) ++ realm)
  pad_to_multiple_of_4 (afterRealm ++ be16 6 ++ be16 (username.length % 65536) ++ username)

/-- Overwrite of `request[2..4]` with the big-endian message length
(`network.rs` lines 282-283). -/
def writeMessageLength (request : List Nat) (len : Nat) : List Nat :=
  match request with
  | a :: b :: _ :: _ :: rest => a :: b :: (len / 256 % 256) :: (len % 256) :: rest
  | l => l

/-- The complete allocation request of `setup_turn_connection` (`network.rs`
lines 244-283), parametric in the HMAC-SHA1 function (the hash itself is
opaque here; only where it is applied matters).  The source computes the
HMAC over the prefix while the length field still holds the zero
placeholder, appends the MESSAGE-INTEGRITY attribute, and only then writes
the final message length. -/
def buildAllocateRequest (hmacF : List Nat → List Nat → List Nat)
    (realm username credential txid : List Nat) : List Nat :=
  let pre := allocRequestPrefix realm username txid
  let key := hmac_key username credential realm
  let mi := hmacF key pre
  let full := pre ++ be16 8 ++ be16 20 ++ mi
  writeMessageLength full (full.length - 20)

/-- C3: in the request as built (here with realm `"r"`, username `"u"`,
credential `"c"`, a zero transaction id, and the HMAC function abstract),
the stored MESSAGE-INTEGRITY value is the HMAC of the 44-byte prefix whose
`message_length` bytes still hold the zero placeholder; the final message
length 48 — covering all attributes including MESSAGE-INTEGRITY — is only
written afterwards, so the HMAC is not computed over a message with the
final length in place. -/
theorem turn_hmac_over_placeholder_length :
    (∀ hmacF : List Nat → List Nat → List Nat,
       (buildAllocateRequest hmacF [114] [117] [99] (List.replicate 12 0)).drop 48
         = hmacF (hmac_key [117] [99] [114])
             (allocRequestPrefix [114] [117] (List.replicate 12 0))) ∧
    (allocRequestPrefix [114] [117] (List.replicate 12 0)).get? 2 = some 0 ∧
    (allocRequestPrefix [114] [117] (List.replicate 12 0)).get? 3 = some 0 ∧
    (allocRequestPrefix [114] [117] (List.replicate 12 0)).length = 44 ∧
    (buildAllocateRequest (fun _ _ => List.replicate 20 0) [114] [117] [99]
        (List.replicate 12 0)).get? 2 = some 0 ∧
    (buildAllocateRequest (fun _ _ => List.replicate 20 0) [114] [117] [99]
        (List.replicate 12 0)).get? 3 = some 48 ∧
    (buildAllocateRequest (fun _ _ => List.replicate 20 0) [114] [117] [99]
        (List.replicate 12 0)).length = 68 := by
  refine ⟨fun hmacF => rfl, rfl, rfl, rfl, rfl, rfl, rfl⟩

/-! ## TURN response parsing (`network.rs` lines 464-538) -/

/-- A checked byte read: `Except.error ()` models the out-of-bounds panic
of a Rust slice index. -/
def rdByte (r : List Nat) (i : Nat) : Except Unit Nat :=
  match r.get? i with
  | some b => Except.ok b
  | none => Except.error ()

/-- The ERROR-CODE attribute walk of `process_turn_response` (`network.rs`
lines 475-506).  The fuel argument only bounds the iteration count; each
step advances `pos` by at least 4, so `response.length` is always enough. -/
def turnAttrsError (r : List Nat) : Nat → Nat → Except Unit (Option (List Nat × Nat))
  | 0, _ => Except.ok none
  | fuel + 1, pos =>
    if pos + 4 ≤ r.length then do
      let t0 ← rdByte r pos
      let t1 ← rdByte r (pos + 1)
      let l0 ← rdByte r (pos + 2)
      let l1 ← rdByte r (pos + 3)
      let attr_type := t0 * 256 + t1
      let attr_len := l0 * 256 + l1
      if attr_type = 9 ∧ pos + 8 ≤ r.length then do
        let _ ← rdByte r (pos + 6)
        let _ ← rdByte r (pos + 7)
        Except.ok none
      else
        turnAttrsError r fuel
          (pos + 4 + attr_len + (if attr_len % 4 ≠ 0 then 4 - attr_len % 4 else 0))
    else Except.ok none

/-- The XOR-MAPPED-ADDRESS attribute walk of `process_turn_response`
(`network.rs` lines 514-536).  The reads at `pos + 5` through `pos + 11`
are exactly the unguarded slice indexings of the source. -/
def turnAttrsSuccess (r : List Nat) : Nat → Nat → Except Unit (Option (List Nat × Nat))
  | 0, _ => Except.ok none
  | fuel + 1, pos =>
    if pos + 4 ≤ r.length then do
      let t0 ← rdByte r pos
      let t1 ← rdByte r (pos + 1)
      let l0 ← rdByte r (pos + 2)
      let l1 ← rdByte r (pos + 3)
      let attr_type := t0 * 256 + t1
      let attr_len := l0 * 256 + l1
      if attr_type = 22 then do
        let family ← rdByte r (pos + 5)
        let p0 ← rdByte r (pos + 6)
        let p1 ← rdByte r (pos + 7)
        let port := Nat.xor (p0 * 256 + p1) 8466
        if family = 1 then do
          let a0 ← rdByte r (pos + 8)
          let a1 ← rdByte r (pos + 9)
          let a2 ← rdByte r (pos + 10)
          let a3 ← rdByte r (pos + 11)
          Except.ok (some ([Nat.xor a0 33, Nat.xor a1 18, Nat.xor a2 164, Nat.xor a3 66], port))
        else
          turnAttrsSuccess r fuel
            (pos + 4 + attr_len + (if attr_len % 4 ≠ 0 then 4 - attr_len % 4 else 0))
      else
        turnAttrsSuccess r fuel
          (pos + 4 + attr_len + (if attr_len % 4 ≠ 0 then 4 - attr_len % 4 else 0))
    else Except.ok none

/-- `process_turn_response` (`network.rs` lines 464-538): responses shorter
than 20 bytes yield no address; a message type with the error bits
`0x0110` set walks the attributes for ERROR-CODE; type `0x0103` walks the
attributes for XOR-MAPPED-ADDRESS; anything else yields no address.
`Except.error ()` marks an out-of-bounds slice index (a panic in Rust). -/
def process_turn_response (response : List Nat) : Except Unit (Option (List Nat × Nat)) :=
  if response.length < 20 then Except.ok none
  else do
    let b0 ← rdByte response 0
    let b1 ← rdByte response 1
    let message_type := b0 * 256 + b1
    if Nat.land message_type 272 = 272 then
      turnAttrsError response response.length 20
    else if message_type ≠ 259 then Except.ok none
    else turnAttrsSuccess response response.length 20

/-- A truncated 24-byte Allocate-success response: a valid 20-byte STUN
header (type 0x0103, magic cookie, zero transaction id) followed by the
4-byte header of an XOR-MAPPED-ADDRESS attribute claiming 8 value bytes
that are not present. -/
def turnTruncatedResponse : List Nat :=
  [1, 3, 0, 4] ++ [33, 18, 164, 66] ++ List.replicate 12 0 ++ [0, 22, 0, 8]

/-- C9: `process_turn_response` is not total — on the truncated success
response the XOR-MAPPED-ADDRESS branch reads offset `pos + 5 = 25` of the
24-byte slice, an out-of-bounds index (a panic in Rust). -/
theorem turn_parse_out_of_bounds :
    process_turn_response turnTruncatedResponse = Except.error () ∧
    turnTruncatedResponse.length = 24 := by
  refine ⟨rfl, rfl⟩
